import Mathlib

/-!
Verification of the IPTS (Intel Precise Touch and Stylus) protocol headers.

The development shallowly embeds the wire structures of src/protocol.h and
the driver context of src/context.h. Each packed C struct becomes a Lean
structure whose fields are unbounded naturals standing for the machine
integers; serialization to a little-endian byte list makes the byte layout
explicit, truncating each field to its declared width exactly as storing it
into the packed struct would.
-/

/-! ### Constants from src/protocol.h -/

/-- IPTS_WORKQUEUE_SIZE from protocol.h. -/
abbrev IPTS_WORKQUEUE_SIZE : Nat := 8192

/-- IPTS_WORKQUEUE_ITEM_SIZE from protocol.h. -/
abbrev IPTS_WORKQUEUE_ITEM_SIZE : Nat := 16

/-- IPTS_BUFFERS from protocol.h: how many data / feedback buffers IPTS uses. -/
abbrev IPTS_BUFFERS : Nat := 16

/-! ### Little-endian byte serialization helpers -/

/-- The four little-endian bytes of a u32 field. -/
def u32Bytes (x : Nat) : List Nat :=
  [x % 256, x / 256 % 256, x / 65536 % 256, x / 16777216 % 256]

/-- The two little-endian bytes of a u16 field. -/
def u16Bytes (x : Nat) : List Nat :=
  [x % 256, x / 256 % 256]

/-- The single byte of a u8 field. -/
def u8Bytes (x : Nat) : List Nat :=
  [x % 256]

/-- Serialize a list of u32 values back to back. -/
def serU32List (xs : List Nat) : List Nat :=
  xs.flatMap u32Bytes

/-- Serialize a list of u8 values back to back. -/
def serBytes (xs : List Nat) : List Nat :=
  xs.map (fun x => x % 256)

/-- Pad a byte list with zeros up to n bytes, as a C union pads its
smaller variants up to the size of the largest one. -/
def padTo (n : Nat) (l : List Nat) : List Nat :=
  l ++ List.replicate (n - l.length) 0

/-- Read back the u32 stored little-endian at byte offset n. -/
def readU32 (l : List Nat) (n : Nat) : Nat :=
  l.getD n 0 + 256 * l.getD (n + 1) 0 + 65536 * l.getD (n + 2) 0 +
    16777216 * l.getD (n + 3) 0

/-- Read back the u16 stored little-endian at byte offset n. -/
def readU16 (l : List Nat) (n : Nat) : Nat :=
  l.getD n 0 + 256 * l.getD (n + 1) 0

/-- Read back the u8 stored at byte offset n. -/
def readU8 (l : List Nat) (n : Nat) : Nat :=
  l.getD n 0

/-! ### Enumerations from src/protocol.h -/

/-- enum ipts_evt_code: events that can be sent and received from the ME.
Constructor names render the IPTS_EVT_* enumerators. -/
inductive ipts_evt_code where
  | GetDeviceInfo
  | SetMode
  | SetMemWindow
  | QuiesceIo
  | ReadyForData
  | Feedback
  | ClearMemWindow
  | NotifyDevReady
  deriving DecidableEq

/-- The numeric value of each ipts_evt_code enumerator: the first is
explicitly 1 and the rest count up, as in the C enum. -/
def ipts_evt_code.code : ipts_evt_code → Nat
  | .GetDeviceInfo => 1
  | .SetMode => 2
  | .SetMemWindow => 3
  | .QuiesceIo => 4
  | .ReadyForData => 5
  | .Feedback => 6
  | .ClearMemWindow => 7
  | .NotifyDevReady => 8

/-- IPTS_CMD from protocol.h: the command code of an event. -/
def IPTS_CMD (c : ipts_evt_code) : Nat :=
  c.code

/-- IPTS_RSP from protocol.h: IPTS_CMD + 0x80000000, as u32 arithmetic. -/
def IPTS_RSP (c : ipts_evt_code) : Nat :=
  (IPTS_CMD c + 2147483648) % 4294967296

/-- enum ipts_me_status: status codes returned from the ME. Constructor
names render the IPTS_ME_STATUS_* enumerators. -/
inductive ipts_me_status where
  | Success
  | InvalidParams
  | AccessDenied
  | CmdSizeError
  | NotReady
  | RequestOutstanding
  | NoSensorFound
  | OutOfMemory
  | InternalError
  | SensorDisabled
  | CompatCheckFail
  | SensorExpectedReset
  | SensorUnexpectedReset
  | ResetFailed
  | Timeout
  | TestModeFail
  | SensorFailFatal
  | SensorFailNonfatal
  | InvalidDeviceCaps
  | QuiesceIoInProgress
  | Max
  deriving DecidableEq

/-- The numeric value of each ipts_me_status enumerator: the first is
explicitly 0 and the rest count up, as in the C enum. -/
def ipts_me_status.code : ipts_me_status → Nat
  | .Success => 0
  | .InvalidParams => 1
  | .AccessDenied => 2
  | .CmdSizeError => 3
  | .NotReady => 4
  | .RequestOutstanding => 5
  | .NoSensorFound => 6
  | .OutOfMemory => 7
  | .InternalError => 8
  | .SensorDisabled => 9
  | .CompatCheckFail => 10
  | .SensorExpectedReset => 11
  | .SensorUnexpectedReset => 12
  | .ResetFailed => 13
  | .Timeout => 14
  | .TestModeFail => 15
  | .SensorFailFatal => 16
  | .SensorFailNonfatal => 17
  | .InvalidDeviceCaps => 18
  | .QuiesceIoInProgress => 19
  | .Max => 20

/-- enum ipts_sensor_mode: the mode that IPTS will use. -/
inductive ipts_sensor_mode where
  | Singletouch
  | Multitouch
  deriving DecidableEq

/-- The numeric value of each ipts_sensor_mode enumerator: the first is
explicitly 0, the next counts up, as in the C enum. -/
def ipts_sensor_mode.code : ipts_sensor_mode → Nat
  | .Singletouch => 0
  | .Multitouch => 1

/-! ### Wire structures from src/protocol.h -/

/-- struct ipts_set_mode_cmd: the parameters for the SET_MODE command. -/
structure ipts_set_mode_cmd where
  sensor_mode : Nat
  reserved : Fin 12 → Nat

/-- Byte layout of struct ipts_set_mode_cmd (packed, little-endian). -/
def ipts_set_mode_cmd.serialize (c : ipts_set_mode_cmd) : List Nat :=
  u32Bytes c.sensor_mode ++ serBytes (List.ofFn c.reserved)

/-- struct ipts_set_mem_window_cmd: the parameters for the SET_MEM_WINDOW
command, passing the physical addresses of all buffers to the ME. -/
structure ipts_set_mem_window_cmd where
  data_buffer_addr_lower : Fin IPTS_BUFFERS → Nat
  data_buffer_addr_upper : Fin IPTS_BUFFERS → Nat
  workqueue_addr_lower : Nat
  workqueue_addr_upper : Nat
  doorbell_addr_lower : Nat
  doorbell_addr_upper : Nat
  feedback_buffer_addr_lower : Fin IPTS_BUFFERS → Nat
  feedback_buffer_addr_upper : Fin IPTS_BUFFERS → Nat
  host2me_addr_lower : Nat
  host2me_addr_upper : Nat
  host2me_size : Nat
  reserved1 : Nat
  workqueue_item_size : Nat
  workqueue_size : Nat
  reserved : Fin 32 → Nat

/-- Byte layout of struct ipts_set_mem_window_cmd (packed, little-endian),
field for field in declaration order. -/
def ipts_set_mem_window_cmd.serialize (c : ipts_set_mem_window_cmd) : List Nat :=
  serU32List (List.ofFn c.data_buffer_addr_lower) ++
  (serU32List (List.ofFn c.data_buffer_addr_upper) ++
  (u32Bytes c.workqueue_addr_lower ++
  (u32Bytes c.workqueue_addr_upper ++
  (u32Bytes c.doorbell_addr_lower ++
  (u32Bytes c.doorbell_addr_upper ++
  (serU32List (List.ofFn c.feedback_buffer_addr_lower) ++
  (serU32List (List.ofFn c.feedback_buffer_addr_upper) ++
  (u32Bytes c.host2me_addr_lower ++
  (u32Bytes c.host2me_addr_upper ++
  (u32Bytes c.host2me_size ++
  (u8Bytes c.reserved1 ++
  (u8Bytes c.workqueue_item_size ++
  (u16Bytes c.workqueue_size ++
  serBytes (List.ofFn c.reserved))))))))))))))

/-- struct ipts_feedback_cmd: the parameters for the FEEDBACK command. -/
structure ipts_feedback_cmd where
  buffer : Nat
  transaction : Nat
  reserved : Fin 8 → Nat

/-- Byte layout of struct ipts_feedback_cmd (packed, little-endian). -/
def ipts_feedback_cmd.serialize (c : ipts_feedback_cmd) : List Nat :=
  u32Bytes c.buffer ++ (u32Bytes c.transaction ++ serBytes (List.ofFn c.reserved))

/-- struct ipts_device_info: the data returned in response to the
GET_DEVICE_INFO command. -/
structure ipts_device_info where
  vendor_id : Nat
  device_id : Nat
  hw_rev : Nat
  fw_rev : Nat
  data_size : Nat
  feedback_size : Nat
  reserved : Fin 24 → Nat

/-- Byte layout of struct ipts_device_info (packed, little-endian). -/
def ipts_device_info.serialize (d : ipts_device_info) : List Nat :=
  u16Bytes d.vendor_id ++
  (u16Bytes d.device_id ++
  (u32Bytes d.hw_rev ++
  (u32Bytes d.fw_rev ++
  (u32Bytes d.data_size ++
  (u32Bytes d.feedback_size ++
  serBytes (List.ofFn d.reserved))))))

/-- The anonymous union inside struct ipts_command: one of the three
parameter structs occupies the payload. -/
inductive ipts_command_data where
  | set_mode : ipts_set_mode_cmd → ipts_command_data
  | set_mem_window : ipts_set_mem_window_cmd → ipts_command_data
  | feedback : ipts_feedback_cmd → ipts_command_data

/-- Byte layout of the command payload union: the active variant padded
with zeros to the size of the largest variant (320 bytes). -/
def ipts_command_data.serialize : ipts_command_data → List Nat
  | .set_mode m => padTo 320 m.serialize
  | .set_mem_window w => padTo 320 w.serialize
  | .feedback f => padTo 320 f.serialize

/-- struct ipts_command: a command code plus the parameter union. -/
structure ipts_command where
  code : Nat
  data : ipts_command_data

/-- Byte layout of struct ipts_command (packed, little-endian). -/
def ipts_command.serialize (c : ipts_command) : List Nat :=
  u32Bytes c.code ++ c.data.serialize

/-- The anonymous union inside struct ipts_response: either the device
info or 80 reserved bytes. -/
inductive ipts_response_data where
  | device_info : ipts_device_info → ipts_response_data
  | reserved : (Fin 80 → Nat) → ipts_response_data

/-- Byte layout of the response payload union: the active variant padded
with zeros to the size of the largest variant (80 bytes). -/
def ipts_response_data.serialize : ipts_response_data → List Nat
  | .device_info d => padTo 80 d.serialize
  | .reserved r => serBytes (List.ofFn r)

/-- struct ipts_response: response code, status, and the payload union. -/
structure ipts_response where
  code : Nat
  status : Nat
  data : ipts_response_data

/-- Byte layout of struct ipts_response (packed, little-endian). -/
def ipts_response.serialize (r : ipts_response) : List Nat :=
  u32Bytes r.code ++ (u32Bytes r.status ++ r.data.serialize)

/-! ### Length lemmas -/

theorem u32Bytes_length (x : Nat) : (u32Bytes x).length = 4 := rfl

theorem u16Bytes_length (x : Nat) : (u16Bytes x).length = 2 := rfl

theorem u8Bytes_length (x : Nat) : (u8Bytes x).length = 1 := rfl

theorem serU32List_cons (x : Nat) (xs : List Nat) :
    serU32List (x :: xs) = u32Bytes x ++ serU32List xs := by
  simp [serU32List]

theorem serU32List_length (xs : List Nat) : (serU32List xs).length = 4 * xs.length := by
  induction xs with
  | nil => rfl
  | cons x xs ih =>
      rw [serU32List_cons, List.length_append, u32Bytes_length, ih, List.length_cons]
      omega

theorem serBytes_length (xs : List Nat) : (serBytes xs).length = xs.length := by
  simp [serBytes]

theorem padTo_length (n : Nat) (l : List Nat) (h : l.length ≤ n) :
    (padTo n l).length = n := by
  simp [padTo]
  omega

theorem set_mode_cmd_serialize_length (c : ipts_set_mode_cmd) :
    c.serialize.length = 16 := by
  simp [ipts_set_mode_cmd.serialize, u32Bytes_length, serBytes, u32Bytes]

theorem set_mem_window_cmd_serialize_length (c : ipts_set_mem_window_cmd) :
    c.serialize.length = 320 := by
  simp [ipts_set_mem_window_cmd.serialize, List.length_append, serU32List_length,
    serBytes_length, u32Bytes_length, u16Bytes_length, u8Bytes_length]

theorem feedback_cmd_serialize_length (c : ipts_feedback_cmd) :
    c.serialize.length = 16 := by
  simp [ipts_feedback_cmd.serialize, List.length_append, serBytes_length,
    u32Bytes_length]

theorem device_info_serialize_length (d : ipts_device_info) :
    d.serialize.length = 44 := by
  simp [ipts_device_info.serialize, List.length_append, serBytes_length,
    u32Bytes_length, u16Bytes_length]

theorem command_data_serialize_length (d : ipts_command_data) :
    d.serialize.length = 320 := by
  cases d with
  | set_mode m =>
      simp [ipts_command_data.serialize, padTo_length, set_mode_cmd_serialize_length]
  | set_mem_window w =>
      simp [ipts_command_data.serialize, padTo_length, set_mem_window_cmd_serialize_length]
  | feedback f =>
      simp [ipts_command_data.serialize, padTo_length, feedback_cmd_serialize_length]

theorem command_serialize_length (c : ipts_command) :
    c.serialize.length = 324 := by
  simp [ipts_command.serialize, List.length_append, u32Bytes_length,
    command_data_serialize_length]

theorem response_data_serialize_length (d : ipts_response_data) :
    d.serialize.length = 80 := by
  cases d with
  | device_info i =>
      simp [ipts_response_data.serialize, padTo_length, device_info_serialize_length]
  | reserved r =>
      simp [ipts_response_data.serialize, serBytes_length]

theorem response_serialize_length (r : ipts_response) :
    r.serialize.length = 88 := by
  simp [ipts_response.serialize, List.length_append, u32Bytes_length,
    response_data_serialize_length]

/-! ### Read-back lemmas for the byte layout -/

theorem readU32_skip (l1 l2 : List Nat) (n : Nat) (h : l1.length ≤ n) :
    readU32 (l1 ++ l2) n = readU32 l2 (n - l1.length) := by
  unfold readU32
  have h1 : l1.length ≤ n + 1 := by omega
  have h2 : l1.length ≤ n + 2 := by omega
  have h3 : l1.length ≤ n + 3 := by omega
  rw [List.getD_append_right _ _ _ _ h, List.getD_append_right _ _ _ _ h1,
    List.getD_append_right _ _ _ _ h2, List.getD_append_right _ _ _ _ h3]
  have e1 : n + 1 - l1.length = n - l1.length + 1 := by omega
  have e2 : n + 2 - l1.length = n - l1.length + 2 := by omega
  have e3 : n + 3 - l1.length = n - l1.length + 3 := by omega
  rw [e1, e2, e3]

theorem readU16_skip (l1 l2 : List Nat) (n : Nat) (h : l1.length ≤ n) :
    readU16 (l1 ++ l2) n = readU16 l2 (n - l1.length) := by
  unfold readU16
  have h1 : l1.length ≤ n + 1 := by omega
  rw [List.getD_append_right _ _ _ _ h, List.getD_append_right _ _ _ _ h1]
  have e1 : n + 1 - l1.length = n - l1.length + 1 := by omega
  rw [e1]

theorem readU8_skip (l1 l2 : List Nat) (n : Nat) (h : l1.length ≤ n) :
    readU8 (l1 ++ l2) n = readU8 l2 (n - l1.length) := by
  unfold readU8
  rw [List.getD_append_right _ _ _ _ h]

theorem readU32_u32Bytes (x : Nat) (rest : List Nat) :
    readU32 (u32Bytes x ++ rest) 0 = x % 4294967296 := by
  have h : readU32 (u32Bytes x ++ rest) 0 =
      x % 256 + 256 * (x / 256 % 256) + 65536 * (x / 65536 % 256) +
        16777216 * (x / 16777216 % 256) := rfl
  rw [h]
  omega

theorem readU16_u16Bytes (x : Nat) (rest : List Nat) :
    readU16 (u16Bytes x ++ rest) 0 = x % 65536 := by
  have h : readU16 (u16Bytes x ++ rest) 0 = x % 256 + 256 * (x / 256 % 256) := rfl
  rw [h]
  omega

theorem readU8_u8Bytes (x : Nat) (rest : List Nat) :
    readU8 (u8Bytes x ++ rest) 0 = x % 256 := rfl

theorem readU32_serU32List (xs : List Nat) (rest : List Nat) (k : Nat)
    (h : k < xs.length) :
    readU32 (serU32List xs ++ rest) (4 * k) = xs.getD k 0 % 4294967296 := by
  induction xs generalizing k rest with
  | nil => simp at h
  | cons x xs ih =>
      rw [serU32List_cons, List.append_assoc]
      cases k with
      | zero =>
          rw [Nat.mul_zero, readU32_u32Bytes]
          rfl
      | succ k =>
          rw [readU32_skip _ _ _ (by rw [u32Bytes_length]; omega)]
          rw [u32Bytes_length]
          have e : 4 * (k + 1) - 4 = 4 * k := by omega
          rw [e, ih rest k (by simpa using h)]
          rfl

/-! ### Driver context from src/context.h -/

/-- struct ipts_buffer_info: a host-owned, device-visible memory region,
as a host address and a DMA (device-visible) address. Pointers are
modelled as natural-number addresses. -/
structure ipts_buffer_info where
  address : Nat
  dma_address : Nat

/-- struct ipts_context: the aggregate driver state, field for field from
context.h. The two device pointers are modelled as opaque handles; the
device_info member (declared there as struct ipts_get_device_info_rsp,
the name protocol.h spells ipts_device_info) holds the queried info. -/
structure ipts_context where
  cldev : Nat
  dev : Nat
  device_info : ipts_device_info
  data : Fin IPTS_BUFFERS → ipts_buffer_info
  doorbell : ipts_buffer_info
  feedback : Fin IPTS_BUFFERS → ipts_buffer_info
  workqueue : ipts_buffer_info
  host2me : ipts_buffer_info
  ready : Nat

/-- The C type of a member of struct ipts_context, as a descriptor. The
descriptors that no member carries (a stored memory-window record, a
plain u32 counter such as a saved doorbell value) are listed so that
their absence from the struct can be stated. -/
inductive CFieldType where
  | ptrMeiClDevice
  | ptrDevice
  | deviceInfoRec
  | bufferInfoRec
  | bufferInfoArray (n : Nat)
  | u8Field
  | u16Field
  | u32Field
  | memWindowRec
  deriving DecidableEq

/-- The member list of struct ipts_context from context.h, in declaration
order: name and C type of every member. -/
def ipts_context_fields : List (String × CFieldType) :=
  [("cldev", CFieldType.ptrMeiClDevice),
   ("dev", CFieldType.ptrDevice),
   ("device_info", CFieldType.deviceInfoRec),
   ("data", CFieldType.bufferInfoArray IPTS_BUFFERS),
   ("doorbell", CFieldType.bufferInfoRec),
   ("feedback", CFieldType.bufferInfoArray IPTS_BUFFERS),
   ("workqueue", CFieldType.bufferInfoRec),
   ("host2me", CFieldType.bufferInfoRec),
   ("ready", CFieldType.u8Field)]

/-! ### Parts of the driver modelled from the spec

The behavioral sources of this repository (receiver.c, resources.c,
control.c) are not among the given files; only their data definitions
are. The definitions below model the missing behavior from the spec. -/

/-- Modelled from the spec: receiver.c, which resolves a doorbell value
to a data-buffer index, is not among the sources. The spec says that
doorbell mod the pool size selects the data buffer most recently filled;
the pool size is IPTS_BUFFERS from protocol.h. -/
def buffer_index (d : Nat) : Nat :=
  d % IPTS_BUFFERS

/-- Modelled from the spec: the memory-window builder (resources.c /
control.c) is not among the sources. The spec says each device-visible
address is split into its low 32-bit half. -/
def addr_lower (a : Nat) : Nat :=
  a % 4294967296

/-- Modelled from the spec: the memory-window builder (resources.c /
control.c) is not among the sources. The spec says each device-visible
address is split into its high 32-bit half. -/
def addr_upper (a : Nat) : Nat :=
  a / 4294967296 % 4294967296

/-- Modelled from the spec: the allocation routine (resources.c) is not
among the sources. The spec says 16 data buffers are allocated, each
sized to the data_size required by the device info. -/
def dataBufferSizes (info : ipts_device_info) : List Nat :=
  List.replicate IPTS_BUFFERS info.data_size

/-- Modelled from the spec: the allocation routine (resources.c) is not
among the sources. The spec says 16 feedback buffers are allocated, each
sized to the feedback_size required by the device info. -/
def feedbackBufferSizes (info : ipts_device_info) : List Nat :=
  List.replicate IPTS_BUFFERS info.feedback_size

/-- The three singleton buffers whose device-visible addresses the
memory-window payload carries as explicit lower/upper pairs, read off
the fields of struct ipts_set_mem_window_cmd in declaration order:
workqueue, doorbell, host2me. -/
def singletonAddrPairs (c : ipts_set_mem_window_cmd) : List (Nat × Nat) :=
  [(c.workqueue_addr_lower, c.workqueue_addr_upper),
   (c.doorbell_addr_lower, c.doorbell_addr_upper),
   (c.host2me_addr_lower, c.host2me_addr_upper)]

/-- The all-zero memory-window payload, a concrete instance. -/
def zeroMemWindowCmd : ipts_set_mem_window_cmd :=
  { data_buffer_addr_lower := fun _ => 0
    data_buffer_addr_upper := fun _ => 0
    workqueue_addr_lower := 0
    workqueue_addr_upper := 0
    doorbell_addr_lower := 0
    doorbell_addr_upper := 0
    feedback_buffer_addr_lower := fun _ => 0
    feedback_buffer_addr_upper := fun _ => 0
    host2me_addr_lower := 0
    host2me_addr_upper := 0
    host2me_size := 0
    reserved1 := 0
    workqueue_item_size := 0
    workqueue_size := 0
    reserved := fun _ => 0 }

/-! ### Word-level view of the memory-window payload -/

/-- The 71 consecutive u32 words that open struct ipts_set_mem_window_cmd,
in declaration order, before the trailing byte-sized fields. -/
def memWindowWords (c : ipts_set_mem_window_cmd) : List Nat :=
  List.ofFn c.data_buffer_addr_lower ++
  (List.ofFn c.data_buffer_addr_upper ++
  ([c.workqueue_addr_lower, c.workqueue_addr_upper,
    c.doorbell_addr_lower, c.doorbell_addr_upper] ++
  (List.ofFn c.feedback_buffer_addr_lower ++
  (List.ofFn c.feedback_buffer_addr_upper ++
  [c.host2me_addr_lower, c.host2me_addr_upper, c.host2me_size]))))

theorem memWindowWords_length (c : ipts_set_mem_window_cmd) :
    (memWindowWords c).length = 71 := by
  simp [memWindowWords]

theorem mw_serialize_words (c : ipts_set_mem_window_cmd) :
    c.serialize = serU32List (memWindowWords c) ++
      (u8Bytes c.reserved1 ++ (u8Bytes c.workqueue_item_size ++
        (u16Bytes c.workqueue_size ++ serBytes (List.ofFn c.reserved)))) := by
  simp [ipts_set_mem_window_cmd.serialize, memWindowWords, serU32List,
    List.flatMap_append, List.flatMap_cons, List.flatMap_nil, List.append_assoc]

theorem getD_skip (l1 l2 : List Nat) (n : Nat) (h : l1.length ≤ n) :
    (l1 ++ l2).getD n 0 = l2.getD (n - l1.length) 0 :=
  List.getD_append_right l1 l2 0 n h

theorem getD_ofFn_fin {n : Nat} (f : Fin n → Nat) (rest : List Nat) (i : Fin n) :
    (List.ofFn f ++ rest).getD i.val 0 = f i := by
  rw [List.getD_append _ _ _ _ (by simp [i.isLt])]
  rw [List.getD_eq_getElem _ _ (by simp [i.isLt])]
  simp

theorem mw_readWord (c : ipts_set_mem_window_cmd) (k : Nat) (h : k < 71) :
    readU32 c.serialize (4 * k) = (memWindowWords c).getD k 0 % 4294967296 := by
  rw [mw_serialize_words]
  exact readU32_serU32List (memWindowWords c) _ k (by rw [memWindowWords_length]; omega)

theorem mw_read_data_lower (c : ipts_set_mem_window_cmd) (i : Fin IPTS_BUFFERS) :
    readU32 c.serialize (4 * i.val) = c.data_buffer_addr_lower i % 4294967296 := by
  rw [mw_readWord c i.val (by have h : i.val < 16 := i.isLt; omega)]
  unfold memWindowWords
  rw [getD_ofFn_fin]

theorem mw_read_data_upper (c : ipts_set_mem_window_cmd) (i : Fin IPTS_BUFFERS) :
    readU32 c.serialize (64 + 4 * i.val) =
      c.data_buffer_addr_upper i % 4294967296 := by
  have e : 64 + 4 * i.val = 4 * (16 + i.val) := by omega
  rw [e, mw_readWord c (16 + i.val) (by have h : i.val < 16 := i.isLt; omega)]
  unfold memWindowWords
  rw [getD_skip _ _ _ (by simp)]
  simp only [List.length_ofFn]
  rw [show 16 + i.val - 16 = i.val from by omega]
  rw [getD_ofFn_fin]

theorem mw_read_workqueue_addr_lower (c : ipts_set_mem_window_cmd) :
    readU32 c.serialize 128 = c.workqueue_addr_lower % 4294967296 := by
  rw [show (128 : Nat) = 4 * 32 from rfl, mw_readWord c 32 (by omega)]
  unfold memWindowWords
  rw [getD_skip _ _ _ (by simp), getD_skip _ _ _ (by simp)]
  simp only [List.length_ofFn]
  rfl

theorem mw_read_workqueue_addr_upper (c : ipts_set_mem_window_cmd) :
    readU32 c.serialize 132 = c.workqueue_addr_upper % 4294967296 := by
  rw [show (132 : Nat) = 4 * 33 from rfl, mw_readWord c 33 (by omega)]
  unfold memWindowWords
  rw [getD_skip _ _ _ (by simp), getD_skip _ _ _ (by simp)]
  simp only [List.length_ofFn]
  rfl

theorem mw_read_doorbell_addr_lower (c : ipts_set_mem_window_cmd) :
    readU32 c.serialize 136 = c.doorbell_addr_lower % 4294967296 := by
  rw [show (136 : Nat) = 4 * 34 from rfl, mw_readWord c 34 (by omega)]
  unfold memWindowWords
  rw [getD_skip _ _ _ (by simp), getD_skip _ _ _ (by simp)]
  simp only [List.length_ofFn]
  rfl

theorem mw_read_doorbell_addr_upper (c : ipts_set_mem_window_cmd) :
    readU32 c.serialize 140 = c.doorbell_addr_upper % 4294967296 := by
  rw [show (140 : Nat) = 4 * 35 from rfl, mw_readWord c 35 (by omega)]
  unfold memWindowWords
  rw [getD_skip _ _ _ (by simp), getD_skip _ _ _ (by simp)]
  simp only [List.length_ofFn]
  rfl

theorem mw_read_feedback_lower (c : ipts_set_mem_window_cmd) (i : Fin IPTS_BUFFERS) :
    readU32 c.serialize (144 + 4 * i.val) =
      c.feedback_buffer_addr_lower i % 4294967296 := by
  have e : 144 + 4 * i.val = 4 * (36 + i.val) := by omega
  rw [e, mw_readWord c (36 + i.val) (by have h : i.val < 16 := i.isLt; omega)]
  unfold memWindowWords
  rw [getD_skip _ _ _ (by simp <;> omega)]
  simp only [List.length_ofFn, IPTS_BUFFERS]
  rw [show 36 + i.val - 16 = 20 + i.val from by omega]
  rw [getD_skip _ _ _ (by simp <;> omega)]
  simp only [List.length_ofFn, IPTS_BUFFERS]
  rw [show 20 + i.val - 16 = 4 + i.val from by omega]
  rw [getD_skip _ _ _ (by simp <;> omega)]
  simp only [List.length_cons, List.length_nil]
  rw [show 4 + i.val - (0 + 1 + 1 + 1 + 1) = i.val from by omega]
  rw [getD_ofFn_fin]

theorem mw_read_feedback_upper (c : ipts_set_mem_window_cmd) (i : Fin IPTS_BUFFERS) :
    readU32 c.serialize (208 + 4 * i.val) =
      c.feedback_buffer_addr_upper i % 4294967296 := by
  have e : 208 + 4 * i.val = 4 * (52 + i.val) := by omega
  rw [e, mw_readWord c (52 + i.val) (by have h : i.val < 16 := i.isLt; omega)]
  unfold memWindowWords
  rw [getD_skip _ _ _ (by simp <;> omega)]
  simp only [List.length_ofFn, IPTS_BUFFERS]
  rw [show 52 + i.val - 16 = 36 + i.val from by omega]
  rw [getD_skip _ _ _ (by simp <;> omega)]
  simp only [List.length_ofFn, IPTS_BUFFERS]
  rw [show 36 + i.val - 16 = 20 + i.val from by omega]
  rw [getD_skip _ _ _ (by simp <;> omega)]
  simp only [List.length_cons, List.length_nil]
  rw [show 20 + i.val - (0 + 1 + 1 + 1 + 1) = 16 + i.val from by omega]
  rw [getD_skip _ _ _ (by simp <;> omega)]
  simp only [List.length_ofFn, IPTS_BUFFERS]
  rw [show 16 + i.val - 16 = i.val from by omega]
  rw [getD_ofFn_fin]

theorem mw_read_host2me_addr_lower (c : ipts_set_mem_window_cmd) :
    readU32 c.serialize 272 = c.host2me_addr_lower % 4294967296 := by
  rw [show (272 : Nat) = 4 * 68 from rfl, mw_readWord c 68 (by omega)]
  unfold memWindowWords
  rw [getD_skip _ _ _ (by simp <;> omega)]
  simp only [List.length_ofFn, IPTS_BUFFERS]
  rw [show (68 : Nat) - 16 = 52 from rfl]
  rw [getD_skip _ _ _ (by simp <;> omega)]
  simp only [List.length_ofFn, IPTS_BUFFERS]
  rw [show (52 : Nat) - 16 = 36 from rfl]
  rw [getD_skip _ _ _ (by simp <;> omega)]
  simp only [List.length_cons, List.length_nil]
  rw [show (36 : Nat) - (0 + 1 + 1 + 1 + 1) = 32 from by omega]
  rw [getD_skip _ _ _ (by simp <;> omega)]
  simp only [List.length_ofFn, IPTS_BUFFERS]
  rw [show (32 : Nat) - 16 = 16 from rfl]
  rw [getD_skip _ _ _ (by simp <;> omega)]
  simp only [List.length_ofFn, IPTS_BUFFERS]
  rw [show (16 : Nat) - 16 = 0 from rfl]
  rfl

theorem mw_read_host2me_addr_upper (c : ipts_set_mem_window_cmd) :
    readU32 c.serialize 276 = c.host2me_addr_upper % 4294967296 := by
  rw [show (276 : Nat) = 4 * 69 from rfl, mw_readWord c 69 (by omega)]
  unfold memWindowWords
  rw [getD_skip _ _ _ (by simp <;> omega)]
  simp only [List.length_ofFn, IPTS_BUFFERS]
  rw [show (69 : Nat) - 16 = 53 from rfl]
  rw [getD_skip _ _ _ (by simp <;> omega)]
  simp only [List.length_ofFn, IPTS_BUFFERS]
  rw [show (53 : Nat) - 16 = 37 from rfl]
  rw [getD_skip _ _ _ (by simp <;> omega)]
  simp only [List.length_cons, List.length_nil]
  rw [show (37 : Nat) - (0 + 1 + 1 + 1 + 1) = 33 from by omega]
  rw [getD_skip _ _ _ (by simp <;> omega)]
  simp only [List.length_ofFn, IPTS_BUFFERS]
  rw [show (33 : Nat) - 16 = 17 from rfl]
  rw [getD_skip _ _ _ (by simp <;> omega)]
  simp only [List.length_ofFn, IPTS_BUFFERS]
  rw [show (17 : Nat) - 16 = 1 from rfl]
  rfl

theorem mw_read_host2me_size (c : ipts_set_mem_window_cmd) :
    readU32 c.serialize 280 = c.host2me_size % 4294967296 := by
  rw [show (280 : Nat) = 4 * 70 from rfl, mw_readWord c 70 (by omega)]
  unfold memWindowWords
  rw [getD_skip _ _ _ (by simp <;> omega)]
  simp only [List.length_ofFn, IPTS_BUFFERS]
  rw [show (70 : Nat) - 16 = 54 from rfl]
  rw [getD_skip _ _ _ (by simp <;> omega)]
  simp only [List.length_ofFn, IPTS_BUFFERS]
  rw [show (54 : Nat) - 16 = 38 from rfl]
  rw [getD_skip _ _ _ (by simp <;> omega)]
  simp only [List.length_cons, List.length_nil]
  rw [show (38 : Nat) - (0 + 1 + 1 + 1 + 1) = 34 from by omega]
  rw [getD_skip _ _ _ (by simp <;> omega)]
  simp only [List.length_ofFn, IPTS_BUFFERS]
  rw [show (34 : Nat) - 16 = 18 from rfl]
  rw [getD_skip _ _ _ (by simp <;> omega)]
  simp only [List.length_ofFn, IPTS_BUFFERS]
  rw [show (18 : Nat) - 16 = 2 from rfl]
  rfl

theorem mw_read_workqueue_item_size (c : ipts_set_mem_window_cmd) :
    readU8 c.serialize 285 = c.workqueue_item_size % 256 := by
  rw [mw_serialize_words]
  rw [readU8_skip _ _ _ (by rw [serU32List_length, memWindowWords_length]; omega)]
  rw [serU32List_length, memWindowWords_length]
  rw [show 285 - 4 * 71 = 1 from rfl]
  rw [readU8_skip _ _ _ (by rw [u8Bytes_length])]
  rw [u8Bytes_length]
  exact readU8_u8Bytes _ _

theorem mw_read_workqueue_size (c : ipts_set_mem_window_cmd) :
    readU16 c.serialize 286 = c.workqueue_size % 65536 := by
  rw [mw_serialize_words]
  rw [readU16_skip _ _ _ (by rw [serU32List_length, memWindowWords_length]; omega)]
  rw [serU32List_length, memWindowWords_length]
  rw [show 286 - 4 * 71 = 2 from rfl]
  rw [readU16_skip _ _ _ (by rw [u8Bytes_length]; omega)]
  rw [u8Bytes_length]
  rw [show (2 : Nat) - 1 = 1 from rfl]
  rw [readU16_skip _ _ _ (by rw [u8Bytes_length])]
  rw [u8Bytes_length]
  rw [show (1 : Nat) - 1 = 0 from rfl]
  exact readU16_u16Bytes _ _

theorem set_mode_read_sensor_mode (c : ipts_set_mode_cmd) :
    readU32 c.serialize 0 = c.sensor_mode % 4294967296 := by
  unfold ipts_set_mode_cmd.serialize
  exact readU32_u32Bytes _ _

theorem set_mode_drop4 (c : ipts_set_mode_cmd) :
    c.serialize.drop 4 = serBytes (List.ofFn c.reserved) := rfl

theorem feedback_read_buffer (c : ipts_feedback_cmd) :
    readU32 c.serialize 0 = c.buffer % 4294967296 := by
  unfold ipts_feedback_cmd.serialize
  exact readU32_u32Bytes _ _

theorem feedback_read_transaction (c : ipts_feedback_cmd) :
    readU32 c.serialize 4 = c.transaction % 4294967296 := by
  unfold ipts_feedback_cmd.serialize
  rw [readU32_skip _ _ _ (by rw [u32Bytes_length])]
  rw [u32Bytes_length]
  rw [show (4 : Nat) - 4 = 0 from rfl]
  exact readU32_u32Bytes _ _

/-- A concrete device info instance used to instantiate hypotheses. -/
def sampleDeviceInfo : ipts_device_info :=
  { vendor_id := 1118
    device_id := 2337
    hw_rev := 1
    fw_rev := 2
    data_size := 4598
    feedback_size := 8
    reserved := fun _ => 0 }

/-! ### Claims -/

/-- C1: the wire structures have exactly the binding byte sizes. The
command record serializes to 324 bytes, the response record to 88, the
mode-select payload to 16, the memory-window payload to 320, the
feedback payload to 16, and the device-info payload to 44. -/
theorem C1_wire_struct_sizes :
    (∀ c : ipts_command, c.serialize.length = 324) ∧
    (∀ r : ipts_response, r.serialize.length = 88) ∧
    (∀ m : ipts_set_mode_cmd, m.serialize.length = 16) ∧
    (∀ w : ipts_set_mem_window_cmd, w.serialize.length = 320) ∧
    (∀ f : ipts_feedback_cmd, f.serialize.length = 16) ∧
    (∀ d : ipts_device_info, d.serialize.length = 44) :=
  ⟨command_serialize_length, response_serialize_length,
   set_mode_cmd_serialize_length, set_mem_window_cmd_serialize_length,
   feedback_cmd_serialize_length, device_info_serialize_length⟩

/-- C2: every valid command code lies in 1..8 and its response code is
the command code plus 0x80000000, and conversely every code in 1..8 is
the code of some command with that response code. -/
theorem C2_response_code_offset :
    (∀ c : ipts_evt_code,
      IPTS_RSP c = IPTS_CMD c + 2147483648 ∧ 1 ≤ IPTS_CMD c ∧ IPTS_CMD c ≤ 8) ∧
    (∀ n : Nat, 1 ≤ n → n ≤ 8 →
      ∃ c : ipts_evt_code, IPTS_CMD c = n ∧ IPTS_RSP c = n + 2147483648) := by
  constructor
  · intro c
    cases c <;> decide
  · intro n h1 h2
    interval_cases n
    · exact ⟨.GetDeviceInfo, by decide⟩
    · exact ⟨.SetMode, by decide⟩
    · exact ⟨.SetMemWindow, by decide⟩
    · exact ⟨.QuiesceIo, by decide⟩
    · exact ⟨.ReadyForData, by decide⟩
    · exact ⟨.Feedback, by decide⟩
    · exact ⟨.ClearMemWindow, by decide⟩
    · exact ⟨.NotifyDevReady, by decide⟩

/-- C2 witness: command code 5 (READY_FOR_DATA) has response code
5 + 0x80000000. -/
theorem C2_response_code_offset_witness :
    ∃ c : ipts_evt_code, IPTS_CMD c = 5 ∧ IPTS_RSP c = 5 + 2147483648 :=
  C2_response_code_offset.2 5 (by decide) (by decide)

/-- C3: the data-buffer index resolved from a doorbell value d is d mod
16, including wraparound: 16 resolves to 0 and 17 to 1, and advancing
the doorbell by the pool size resolves to the same index. -/
theorem C3_buffer_index_mod :
    (∀ d : Nat, buffer_index d = d % 16) ∧
    buffer_index 16 = 0 ∧ buffer_index 17 = 1 ∧
    (∀ d : Nat, buffer_index (d + 16) = buffer_index d) :=
  ⟨fun _ => rfl, rfl, rfl, fun d => Nat.add_mod_right d 16⟩

/-- C4 counterexample: the memory-window payload carries singleton
address pairs for exactly the workqueue, doorbell and host2me buffers,
so their number is three, not the four the claim states; evaluated here
on the all-zero payload. -/
theorem C4_counterexample :
    (singletonAddrPairs zeroMemWindowCmd).length ≠ 4 := by decide

/-- C4 (amended): the memory-window payload carries, for every buffer,
its device-visible address split into low and high 32-bit halves: 16
lower and 16 upper halves for the data buffers at byte offsets 0 and 64,
the same for the feedback buffers at offsets 144 and 208, address pairs
for the THREE singleton buffers (workqueue at 128, doorbell at 136,
host2me at 272), plus the work-queue item size byte at offset 285 and
the 16-bit work-queue size at offset 286; splitting an address below
2^64 into the two halves loses nothing. -/
theorem C4_mem_window_layout :
    (∀ c : ipts_set_mem_window_cmd, ∀ i : Fin IPTS_BUFFERS,
      readU32 c.serialize (4 * i.val) = c.data_buffer_addr_lower i % 4294967296 ∧
      readU32 c.serialize (64 + 4 * i.val) = c.data_buffer_addr_upper i % 4294967296 ∧
      readU32 c.serialize (144 + 4 * i.val) =
        c.feedback_buffer_addr_lower i % 4294967296 ∧
      readU32 c.serialize (208 + 4 * i.val) =
        c.feedback_buffer_addr_upper i % 4294967296) ∧
    (∀ c : ipts_set_mem_window_cmd,
      readU32 c.serialize 128 = c.workqueue_addr_lower % 4294967296 ∧
      readU32 c.serialize 132 = c.workqueue_addr_upper % 4294967296 ∧
      readU32 c.serialize 136 = c.doorbell_addr_lower % 4294967296 ∧
      readU32 c.serialize 140 = c.doorbell_addr_upper % 4294967296 ∧
      readU32 c.serialize 272 = c.host2me_addr_lower % 4294967296 ∧
      readU32 c.serialize 276 = c.host2me_addr_upper % 4294967296 ∧
      (singletonAddrPairs c).length = 3 ∧
      readU8 c.serialize 285 = c.workqueue_item_size % 256 ∧
      readU16 c.serialize 286 = c.workqueue_size % 65536) ∧
    (∀ a : Nat,
      addr_lower a + 4294967296 * addr_upper a = a % 18446744073709551616 ∧
      addr_lower a < 4294967296 ∧ addr_upper a < 4294967296) := by
  refine ⟨fun c i => ⟨mw_read_data_lower c i, mw_read_data_upper c i,
    mw_read_feedback_lower c i, mw_read_feedback_upper c i⟩,
    fun c => ⟨mw_read_workqueue_addr_lower c, mw_read_workqueue_addr_upper c,
      mw_read_doorbell_addr_lower c, mw_read_doorbell_addr_upper c,
      mw_read_host2me_addr_lower c, mw_read_host2me_addr_upper c, rfl,
      mw_read_workqueue_item_size c, mw_read_workqueue_size c⟩,
    fun a => ?_⟩
  unfold addr_lower addr_upper
  omega

/-- C5: the eight command codes are numbered consecutively 1 through 8
in exactly the declared order. -/
theorem C5_command_code_values :
    IPTS_CMD .GetDeviceInfo = 1 ∧ IPTS_CMD .SetMode = 2 ∧
    IPTS_CMD .SetMemWindow = 3 ∧ IPTS_CMD .QuiesceIo = 4 ∧
    IPTS_CMD .ReadyForData = 5 ∧ IPTS_CMD .Feedback = 6 ∧
    IPTS_CMD .ClearMemWindow = 7 ∧ IPTS_CMD .NotifyDevReady = 8 := by
  decide

/-- C6: the twenty status codes are numbered consecutively 0 through 19
in the listed order, from success = 0 through quiesce-io-in-progress =
19 (the MAX sentinel that follows them is 20). -/
theorem C6_status_code_values :
    ipts_me_status.code .Success = 0 ∧
    ipts_me_status.code .InvalidParams = 1 ∧
    ipts_me_status.code .AccessDenied = 2 ∧
    ipts_me_status.code .CmdSizeError = 3 ∧
    ipts_me_status.code .NotReady = 4 ∧
    ipts_me_status.code .RequestOutstanding = 5 ∧
    ipts_me_status.code .NoSensorFound = 6 ∧
    ipts_me_status.code .OutOfMemory = 7 ∧
    ipts_me_status.code .InternalError = 8 ∧
    ipts_me_status.code .SensorDisabled = 9 ∧
    ipts_me_status.code .CompatCheckFail = 10 ∧
    ipts_me_status.code .SensorExpectedReset = 11 ∧
    ipts_me_status.code .SensorUnexpectedReset = 12 ∧
    ipts_me_status.code .ResetFailed = 13 ∧
    ipts_me_status.code .Timeout = 14 ∧
    ipts_me_status.code .TestModeFail = 15 ∧
    ipts_me_status.code .SensorFailFatal = 16 ∧
    ipts_me_status.code .SensorFailNonfatal = 17 ∧
    ipts_me_status.code .InvalidDeviceCaps = 18 ∧
    ipts_me_status.code .QuiesceIoInProgress = 19 ∧
    ipts_me_status.code .Max = 20 := by
  decide

/-- C7: the buffer pool shape is fixed by constants: every session has
exactly 16 data and 16 feedback buffers regardless of the device, the
work-queue buffer is fixed at 8192 bytes with a 16-byte item stride, and
only the byte sizes of the data and feedback buffers vary, each equal to
the size the device info dictates. -/
theorem C7_fixed_pool_shape :
    IPTS_BUFFERS = 16 ∧ IPTS_WORKQUEUE_SIZE = 8192 ∧
    IPTS_WORKQUEUE_ITEM_SIZE = 16 ∧
    (∀ ctx : ipts_context,
      (List.ofFn ctx.data).length = 16 ∧ (List.ofFn ctx.feedback).length = 16) ∧
    (∀ info : ipts_device_info,
      (dataBufferSizes info).length = 16 ∧
      (feedbackBufferSizes info).length = 16 ∧
      (∀ s ∈ dataBufferSizes info, s = info.data_size) ∧
      (∀ s ∈ feedbackBufferSizes info, s = info.feedback_size)) := by
  refine ⟨rfl, rfl, rfl, fun ctx => ⟨by simp, by simp⟩, fun info => ⟨by
    simp [dataBufferSizes], by simp [feedbackBufferSizes], fun s hs => ?_,
    fun s hs => ?_⟩⟩
  · exact List.eq_of_mem_replicate hs
  · exact List.eq_of_mem_replicate hs

/-- C7 witness: on the sample device info, a size drawn from the data
buffer list equals the data_size the info dictates. -/
theorem C7_fixed_pool_shape_witness :
    4598 ∈ dataBufferSizes sampleDeviceInfo ∧ 4598 = sampleDeviceInfo.data_size :=
  ⟨by decide, (C7_fixed_pool_shape.2.2.2.2 sampleDeviceInfo).2.2.1 4598 (by decide)⟩

/-- C8 counterexample: no member of struct ipts_context has the
memory-window record type, and none is a bare u32 that could hold a
last-observed doorbell counter value, so the session aggregate does not
contain the MemoryWindow or the last-observed doorbell value the claim
lists. -/
theorem C8_counterexample :
    (ipts_context_fields.filter (fun p => p.2 == CFieldType.memWindowRec)).length = 0 ∧
    (ipts_context_fields.filter (fun p => p.2 == CFieldType.u32Field)).length = 0 := by
  decide

/-- C8 (amended): the session aggregate struct ipts_context contains the
device handles, the device info, and the buffer pool (an array of 16
data buffer infos, the doorbell buffer info, an array of 16 feedback
buffer infos, the workqueue and host2me buffer infos) plus a ready
flag — and nothing else: in particular neither a stored memory-window
record nor a u32 last-observed doorbell value. -/
theorem C8_context_contents :
    ("cldev", CFieldType.ptrMeiClDevice) ∈ ipts_context_fields ∧
    ("dev", CFieldType.ptrDevice) ∈ ipts_context_fields ∧
    ("device_info", CFieldType.deviceInfoRec) ∈ ipts_context_fields ∧
    ("data", CFieldType.bufferInfoArray 16) ∈ ipts_context_fields ∧
    ("doorbell", CFieldType.bufferInfoRec) ∈ ipts_context_fields ∧
    ("feedback", CFieldType.bufferInfoArray 16) ∈ ipts_context_fields ∧
    ("workqueue", CFieldType.bufferInfoRec) ∈ ipts_context_fields ∧
    ("host2me", CFieldType.bufferInfoRec) ∈ ipts_context_fields ∧
    ("ready", CFieldType.u8Field) ∈ ipts_context_fields ∧
    ipts_context_fields.length = 9 ∧
    (∀ p ∈ ipts_context_fields,
      p.2 ≠ CFieldType.memWindowRec ∧ p.2 ≠ CFieldType.u32Field) := by
  decide

/-- C8 witness: the doorbell member, a buffer info, is not a stored
memory-window record. -/
theorem C8_context_contents_witness :
    ("doorbell", CFieldType.bufferInfoRec).2 ≠ CFieldType.memWindowRec :=
  (C8_context_contents.2.2.2.2.2.2.2.2.2.2
    ("doorbell", CFieldType.bufferInfoRec) (by decide)).1

/-- C9: single-touch mode encodes to 0 and multitouch to 1; the
mode-select payload carries the 32-bit mode value in its first four
bytes followed by the twelve reserved bytes, so requesting multitouch
yields a payload whose first 32-bit word is 1. -/
theorem C9_sensor_mode_encoding :
    ipts_sensor_mode.code .Singletouch = 0 ∧
    ipts_sensor_mode.code .Multitouch = 1 ∧
    (∀ m : ipts_sensor_mode, ∀ r : Fin 12 → Nat,
      readU32 (ipts_set_mode_cmd.serialize ⟨ipts_sensor_mode.code m, r⟩) 0 =
        ipts_sensor_mode.code m ∧
      (ipts_set_mode_cmd.serialize ⟨ipts_sensor_mode.code m, r⟩).length = 16 ∧
      (ipts_set_mode_cmd.serialize ⟨ipts_sensor_mode.code m, r⟩).drop 4 =
        serBytes (List.ofFn r)) ∧
    (∀ r : Fin 12 → Nat,
      readU32 (ipts_set_mode_cmd.serialize ⟨ipts_sensor_mode.code .Multitouch, r⟩) 0 = 1) := by
  refine ⟨rfl, rfl, fun m r => ⟨?_, set_mode_cmd_serialize_length _, set_mode_drop4 _⟩,
    fun r => ?_⟩
  · rw [set_mode_read_sensor_mode]
    cases m <;> rfl
  · rw [set_mode_read_sensor_mode]
    rfl

/-- C10: the feedback payload stores a 32-bit buffer index at byte
offset 0 and a 32-bit transaction id at byte offset 4 in its 16 bytes;
building the payload from a buffer index and a transaction id and
reading the two fields back returns exactly that pair. -/
theorem C10_feedback_roundtrip (b t : Nat) (r : Fin 8 → Nat)
    (hb : b < 4294967296) (ht : t < 4294967296) :
    readU32 (ipts_feedback_cmd.serialize ⟨b, t, r⟩) 0 = b ∧
    readU32 (ipts_feedback_cmd.serialize ⟨b, t, r⟩) 4 = t ∧
    (ipts_feedback_cmd.serialize ⟨b, t, r⟩).length = 16 := by
  refine ⟨?_, ?_, feedback_cmd_serialize_length _⟩
  · rw [feedback_read_buffer]
    exact Nat.mod_eq_of_lt hb
  · rw [feedback_read_transaction]
    exact Nat.mod_eq_of_lt ht

/-- C10 witness: the feedback payload built from buffer 3 and
transaction 7 reads back as exactly that pair. -/
theorem C10_feedback_roundtrip_witness :
    readU32 (ipts_feedback_cmd.serialize ⟨3, 7, fun _ => 0⟩) 0 = 3 ∧
    readU32 (ipts_feedback_cmd.serialize ⟨3, 7, fun _ => 0⟩) 4 = 7 ∧
    (ipts_feedback_cmd.serialize ⟨3, 7, fun _ => 0⟩).length = 16 :=
  C10_feedback_roundtrip 3 7 (fun _ => 0) (by decide) (by decide)
